import Mathlib

/-
Verification development for the VT rendering/output engine
(src/renderer/vt/state.cpp and companions).

The engine state, `_Flush`, `UpdateViewport`, `InheritCursor`,
`RequestCursor`, `SuppressResizeRepaint` and the shutdown-watchdog task
body are shallow embeddings of the C++ in src/renderer/vt/state.cpp.
Helpers whose bodies live outside that file (the Viewport rectangle
class, `_InvalidCombine`, `InvalidateAll`, `_ResizeWindow`,
`_RequestCursor`) are modelled from the specification, as marked on each
definition.

OS effects are made explicit: the pipe write's success is a boolean
parameter, the calling thread's identity is a parameter, and each
operation that touches shared state additionally returns the ordered
trace of the shared-state events it performed.
-/

namespace VtTerminal

/-- Result code of an engine operation: `S_OK` for success, `E_FAIL`
standing for any failing HRESULT (the concrete failing code comes from
the OS and is not modelled). -/
inductive HRESULT where
  | S_OK : HRESULT
  | E_FAIL : HRESULT
deriving DecidableEq, Repr

/-- `SUCCEEDED(hr)` of the Windows headers. -/
def HRESULT.SUCCEEDED : HRESULT → Bool
  | .S_OK => true
  | .E_FAIL => false

/-- A screen coordinate (the Windows COORD struct); SHORT fields are
modelled as unbounded integers, the engine never overflows them. -/
structure COORD where
  X : Int
  Y : Int
deriving DecidableEq, Repr

/-- An inclusive rectangle (the Windows SMALL_RECT struct). -/
structure SMALL_RECT where
  Left : Int
  Top : Int
  Right : Int
  Bottom : Int
deriving DecidableEq, Repr

/-- Modelled from the spec: a Viewport is an axis-aligned rectangle with
a consistent inclusive convention on all four sides (the class itself
lives in src/types/viewport.cpp, outside the provided sources). -/
structure Viewport where
  Left : Int
  Top : Int
  Right : Int
  Bottom : Int
deriving DecidableEq, Repr

/-- Modelled from the spec: build a Viewport from an inclusive rect. -/
def Viewport.FromInclusive (sr : SMALL_RECT) : Viewport :=
  ⟨sr.Left, sr.Top, sr.Right, sr.Bottom⟩

/-- Modelled from the spec: the empty viewport used to initialize the
Invalidated Region. -/
def Viewport.Empty : Viewport := ⟨0, 0, -1, -1⟩

def Viewport.Width (v : Viewport) : Int := v.Right - v.Left + 1

def Viewport.Height (v : Viewport) : Int := v.Bottom - v.Top + 1

def Viewport.RightInclusive (v : Viewport) : Int := v.Right

def Viewport.RightExclusive (v : Viewport) : Int := v.Right + 1

def Viewport.BottomInclusive (v : Viewport) : Int := v.Bottom

def Viewport.BottomExclusive (v : Viewport) : Int := v.Bottom + 1

/-- Modelled from the spec: rectangle union ("combine") — the smallest
rectangle containing both arguments (the Invalidated Region is a single
rectangle, not a general region set). -/
def Viewport.Union (a b : Viewport) : Viewport :=
  ⟨min a.Left b.Left, min a.Top b.Top, max a.Right b.Right, max a.Bottom b.Bottom⟩

/-- Modelled from the spec: clip a rectangle to another (intersection of
the coordinate ranges). -/
def Viewport.Clip (a bounds : Viewport) : Viewport :=
  ⟨max a.Left bounds.Left, max a.Top bounds.Top, min a.Right bounds.Right, min a.Bottom bounds.Bottom⟩

/-- Whether two inclusive rectangles have at least one cell in common. -/
def Viewport.Intersects (a b : Viewport) : Prop :=
  max a.Left b.Left ≤ min a.Right b.Right ∧ max a.Top b.Top ≤ min a.Bottom b.Bottom

instance (a b : Viewport) : Decidable (Viewport.Intersects a b) := by
  unfold Viewport.Intersects
  infer_instance

/-- Cell membership in an inclusive rectangle. -/
def Viewport.ContainsCell (v : Viewport) (x y : Int) : Bool :=
  decide (v.Left ≤ x ∧ x ≤ v.Right ∧ v.Top ≤ y ∧ y ≤ v.Bottom)

/-- Coordinate-wise containment of one inclusive rectangle in another. -/
def Viewport.SubsetOf (a b : Viewport) : Prop :=
  b.Left ≤ a.Left ∧ a.Right ≤ b.Right ∧ b.Top ≤ a.Top ∧ a.Bottom ≤ b.Bottom

/-- One formatted item sitting in the accumulation buffer. The exact
byte grammar of the sequences is out of scope; the buffer records which
sequences were emitted, in order. -/
inductive VtToken where
  | resize : Int → Int → VtToken
  | cursorPositionRequest : VtToken
  | text : String → VtToken
deriving DecidableEq, Repr

/-- An observable event on the shared pipe/slot state, in program order:
a store to the Blocked-Writer slot, a synchronous pipe write of the given
buffered data, or setting the Shutdown Signal. -/
inductive PipeEvent where
  | storeBlockedThreadId : Nat → PipeEvent
  | writeFile : List VtToken → PipeEvent
  | setShutdownEvent : PipeEvent
deriving DecidableEq, Repr

def PipeEvent.isWriteFile : PipeEvent → Bool
  | .writeFile _ => true
  | _ => false

def PipeEvent.isStore : PipeEvent → Bool
  | .storeBlockedThreadId _ => true
  | _ => false

/-- INVALID_COLOR sentinel from conattrs.hpp. -/
def INVALID_COLOR : Int := 0xffffffff

/-- The VtEngine's mutable state, one field per data member of the C++
class that the verified operations read or write.  `shutdownSignaled` is
the observable state of the shared Shutdown Signal event and
`blockedThreadId` the Blocked-Writer slot (0 = empty, as in the code). -/
structure VtEngine where
  buffer : List VtToken
  shutdownSignaled : Bool
  blockedThreadId : Nat
  lastFG : Int
  lastBG : Int
  lastWasBold : Bool
  lastViewport : Viewport
  invalidRect : Viewport
  fInvalidRectUsed : Bool
  lastRealCursor : COORD
  lastText : COORD
  suppressResizeRepaint : Bool
  virtualTop : Int
  firstPaint : Bool
  skipCursor : Bool
  resized : Bool
  circled : Bool
  inResizeRequest : Bool
deriving DecidableEq, Repr

/-- The constructor's member initializers (state.cpp lines 28–58). -/
def VtEngine.construct (initialViewport : Viewport) : VtEngine :=
  { buffer := []
    shutdownSignaled := false
    blockedThreadId := 0
    lastFG := INVALID_COLOR
    lastBG := INVALID_COLOR
    lastWasBold := false
    lastViewport := initialViewport
    invalidRect := Viewport.Empty
    fInvalidRectUsed := false
    lastRealCursor := ⟨0, 0⟩
    lastText := ⟨0, 0⟩
    suppressResizeRepaint := true
    virtualTop := 0
    firstPaint := true
    skipCursor := false
    resized := false
    circled := false
    inResizeRequest := false }

/-- `_Write`: appends the formatted bytes to the accumulation buffer
(state.cpp lines 108–126); allocation failure is not modelled. -/
def VtEngine._Write (s : VtEngine) (tok : VtToken) : HRESULT × VtEngine :=
  (HRESULT.S_OK, { s with buffer := s.buffer ++ [tok] })

/-- Modelled from the spec: `_ResizeWindow` (VtSequences.cpp, outside the
provided sources) emits a resize control sequence sized to the new
width/height into the write buffer. -/
def VtEngine._ResizeWindow (s : VtEngine) (w h : Int) : HRESULT × VtEngine :=
  s._Write (VtToken.resize w h)

/-- Modelled from the spec: `_RequestCursor` (VtSequences.cpp, outside
the provided sources) emits a report-cursor-position control sequence
into the write buffer. -/
def VtEngine._RequestCursor (s : VtEngine) : HRESULT × VtEngine :=
  s._Write VtToken.cursorPositionRequest

/-- Modelled from the spec: `_InvalidCombine` (invalidate.cpp, outside
the provided sources) unions the given rectangle into the Invalidated
Region, clipped to the current Viewport; a rectangle that does not
intersect the Viewport is a no-op. -/
def VtEngine._InvalidCombine (s : VtEngine) (invalid : Viewport) : HRESULT × VtEngine :=
  if invalid.Intersects s.lastViewport then
    let combined := if s.fInvalidRectUsed then Viewport.Union s.invalidRect invalid else invalid
    (HRESULT.S_OK, { s with
       invalidRect := combined.Clip s.lastViewport
       fInvalidRectUsed := true })
  else
    (HRESULT.S_OK, s)

/-- Modelled from the spec: `InvalidateAll` (invalidate.cpp, outside the
provided sources) sets the Invalidated Region equal to the full
Viewport. -/
def VtEngine.InvalidateAll (s : VtEngine) : HRESULT × VtEngine :=
  (HRESULT.S_OK, { s with invalidRect := s.lastViewport, fInvalidRectUsed := true })

/-- `_AllIsInvalid` (state.cpp lines 396–399): the full viewport is
invalidated exactly when the Invalidated Region equals the Viewport. -/
def VtEngine._AllIsInvalid (s : VtEngine) : Bool :=
  decide (s.lastViewport = s.invalidRect)

/-- `SuppressResizeRepaint` (state.cpp lines 408–412). -/
def VtEngine.SuppressResizeRepaint (s : VtEngine) : HRESULT × VtEngine :=
  (HRESULT.S_OK, { s with suppressResizeRepaint := true })

/-- `InheritCursor` (state.cpp lines 424–432). -/
def VtEngine.InheritCursor (s : VtEngine) (coordCursor : COORD) : HRESULT × VtEngine :=
  (HRESULT.S_OK, { s with
     virtualTop := coordCursor.Y
     lastText := coordCursor
     skipCursor := true
     firstPaint := false })

/-- `UpdateViewport` (state.cpp lines 277–337), translated branch for
branch: replace the viewport; emit a resize sequence only when a
dimension changed and suppression is off; clear the suppression flag
unconditionally; then, on success, invalidate everything on shrink, or
combine the right band and then the bottom band on growth; finally set
`resized`. -/
def VtEngine.UpdateViewport (s : VtEngine) (srNewViewport : SMALL_RECT) : HRESULT × VtEngine :=
  let oldView := s.lastViewport
  let newView := Viewport.FromInclusive srNewViewport
  let s0 := { s with lastViewport := newView }
  let p1 :=
    if oldView.Height ≠ newView.Height ∨ oldView.Width ≠ newView.Width then
      if ¬ s0.suppressResizeRepaint then
        s0._ResizeWindow newView.Width newView.Height
      else
        (HRESULT.S_OK, s0)
    else
      (HRESULT.S_OK, s0)
  let s1 := { p1.2 with suppressResizeRepaint := false }
  let p2 :=
    if p1.1.SUCCEEDED then
      if oldView.Height > newView.Height ∨ oldView.Width > newView.Width then
        s1.InvalidateAll
      else
        let p3 :=
          if oldView.Width < newView.Width then
            s1._InvalidCombine (Viewport.FromInclusive
              ⟨oldView.RightExclusive, 0, newView.RightInclusive, oldView.BottomInclusive⟩)
          else
            (HRESULT.S_OK, s1)
        if p3.1.SUCCEEDED ∧ oldView.Height < newView.Height then
          p3.2._InvalidCombine (Viewport.FromInclusive
            ⟨0, oldView.BottomExclusive, newView.RightInclusive, newView.BottomInclusive⟩)
        else
          p3
    else
      (p1.1, s1)
  (p2.1, { p2.2 with resized := true })

/-- `_Flush` (state.cpp lines 128–156).  `currentThreadId` is the OS
identity of the calling thread and `writeFileSucceeds` the outcome the
OS gives the synchronous WriteFile call.  Besides the result and the new
state, returns the ordered trace of shared-state events performed. -/
def VtEngine._Flush (s : VtEngine) (currentThreadId : Nat) (writeFileSucceeds : Bool) :
    HRESULT × VtEngine × List PipeEvent :=
  if ¬ s.shutdownSignaled then
    let afterWrite : VtEngine := { s with blockedThreadId := 0, buffer := [] }
    let trace : List PipeEvent :=
      [PipeEvent.storeBlockedThreadId currentThreadId,
       PipeEvent.writeFile s.buffer,
       PipeEvent.storeBlockedThreadId 0]
    if ¬ writeFileSucceeds then
      (HRESULT.E_FAIL, { afterWrite with shutdownSignaled := true },
        trace ++ [PipeEvent.setShutdownEvent])
    else
      (HRESULT.S_OK, afterWrite, trace)
  else
    (HRESULT.S_OK, s, [])

/-- `RequestCursor` (state.cpp lines 442–447): emit the request sequence,
then flush, propagating the first failure. -/
def VtEngine.RequestCursor (s : VtEngine) (currentThreadId : Nat) (writeFileSucceeds : Bool) :
    HRESULT × VtEngine × List PipeEvent :=
  let p1 := s._RequestCursor
  if ¬ p1.1.SUCCEEDED then
    (p1.1, p1.2, [])
  else
    let p2 := p1.2._Flush currentThreadId writeFileSucceeds
    if ¬ p2.1.SUCCEEDED then
      p2
    else
      (HRESULT.S_OK, p2.2.1, p2.2.2)

/-- One observable action of the shutdown-watchdog task, in program
order. -/
inductive WatchdogAction where
  | waitForShutdownEvent : WatchdogAction
  | loadBlockedThreadId : Nat → WatchdogAction
  | cancelSyncWrite : Nat → WatchdogAction
deriving DecidableEq, Repr

def WatchdogAction.isWait : WatchdogAction → Bool
  | .waitForShutdownEvent => true
  | _ => false

def WatchdogAction.isLoad : WatchdogAction → Bool
  | .loadBlockedThreadId _ => true
  | _ => false

def WatchdogAction.isCancel : WatchdogAction → Bool
  | .cancelSyncWrite _ => true
  | _ => false

/-- The shutdown-watchdog task body (state.cpp lines 69–89): wait on the
Shutdown Signal, load the Blocked-Writer slot once (`observedThreadId`
is the value the load returns), and if it holds a thread identity open
that thread (`openThreadSucceeds` is the OS outcome) and force-cancel
its pending synchronous I/O; then the task ends. -/
def shutdownWatchdogTask (observedThreadId : Nat) (openThreadSucceeds : Bool) :
    List WatchdogAction :=
  [WatchdogAction.waitForShutdownEvent,
   WatchdogAction.loadBlockedThreadId observedThreadId] ++
  (if observedThreadId ≠ 0 then
     if openThreadSucceeds then [WatchdogAction.cancelSyncWrite observedThreadId] else []
   else [])

/-! ### Helper lemmas shared by the claim theorems -/

theorem InvalidCombine_fst (s : VtEngine) (v : Viewport) :
    (s._InvalidCombine v).1 = HRESULT.S_OK := by
  unfold VtEngine._InvalidCombine
  split <;> rfl

theorem InvalidCombine_buffer (s : VtEngine) (v : Viewport) :
    (s._InvalidCombine v).2.buffer = s.buffer := by
  unfold VtEngine._InvalidCombine
  split <;> rfl

theorem InvalidCombine_suppress (s : VtEngine) (v : Viewport) :
    (s._InvalidCombine v).2.suppressResizeRepaint = s.suppressResizeRepaint := by
  unfold VtEngine._InvalidCombine
  split <;> rfl

theorem InvalidCombine_lastViewport (s : VtEngine) (v : Viewport) :
    (s._InvalidCombine v).2.lastViewport = s.lastViewport := by
  unfold VtEngine._InvalidCombine
  split <;> rfl

theorem InvalidateAll_fst (s : VtEngine) : s.InvalidateAll.1 = HRESULT.S_OK := rfl

theorem InvalidateAll_buffer (s : VtEngine) : s.InvalidateAll.2.buffer = s.buffer := rfl

theorem InvalidateAll_suppress (s : VtEngine) :
    s.InvalidateAll.2.suppressResizeRepaint = s.suppressResizeRepaint := rfl

theorem InvalidateAll_lastViewport (s : VtEngine) :
    s.InvalidateAll.2.lastViewport = s.lastViewport := rfl

theorem InvalidateAll_invalidRect (s : VtEngine) :
    s.InvalidateAll.2.invalidRect = s.lastViewport := rfl

theorem UpdateViewport_fst (s : VtEngine) (r : SMALL_RECT) :
    (s.UpdateViewport r).1 = HRESULT.S_OK := by
  unfold VtEngine.UpdateViewport
  by_cases h1 : s.lastViewport.Height ≠ (Viewport.FromInclusive r).Height ∨
      s.lastViewport.Width ≠ (Viewport.FromInclusive r).Width
  all_goals by_cases h2 : s.suppressResizeRepaint = true
  all_goals by_cases h3 : (Viewport.FromInclusive r).Height < s.lastViewport.Height ∨
      (Viewport.FromInclusive r).Width < s.lastViewport.Width
  all_goals by_cases h4 : s.lastViewport.Width < (Viewport.FromInclusive r).Width
  all_goals by_cases h5 : s.lastViewport.Height < (Viewport.FromInclusive r).Height
  all_goals
    simp [h1, h2, h3, h4, h5, VtEngine._ResizeWindow, VtEngine._Write, InvalidateAll_fst,
      InvalidCombine_fst, HRESULT.SUCCEEDED]

theorem UpdateViewport_lastViewport (s : VtEngine) (r : SMALL_RECT) :
    (s.UpdateViewport r).2.lastViewport = Viewport.FromInclusive r := by
  unfold VtEngine.UpdateViewport
  by_cases h1 : s.lastViewport.Height ≠ (Viewport.FromInclusive r).Height ∨
      s.lastViewport.Width ≠ (Viewport.FromInclusive r).Width
  all_goals by_cases h2 : s.suppressResizeRepaint = true
  all_goals by_cases h3 : (Viewport.FromInclusive r).Height < s.lastViewport.Height ∨
      (Viewport.FromInclusive r).Width < s.lastViewport.Width
  all_goals by_cases h4 : s.lastViewport.Width < (Viewport.FromInclusive r).Width
  all_goals by_cases h5 : s.lastViewport.Height < (Viewport.FromInclusive r).Height
  all_goals
    simp [h1, h2, h3, h4, h5, VtEngine._ResizeWindow, VtEngine._Write, InvalidateAll_lastViewport,
      InvalidCombine_lastViewport, InvalidCombine_fst, HRESULT.SUCCEEDED]

theorem UpdateViewport_suppress_after (s : VtEngine) (r : SMALL_RECT) :
    (s.UpdateViewport r).2.suppressResizeRepaint = false := by
  unfold VtEngine.UpdateViewport
  by_cases h1 : s.lastViewport.Height ≠ (Viewport.FromInclusive r).Height ∨
      s.lastViewport.Width ≠ (Viewport.FromInclusive r).Width
  all_goals by_cases h2 : s.suppressResizeRepaint = true
  all_goals by_cases h3 : (Viewport.FromInclusive r).Height < s.lastViewport.Height ∨
      (Viewport.FromInclusive r).Width < s.lastViewport.Width
  all_goals by_cases h4 : s.lastViewport.Width < (Viewport.FromInclusive r).Width
  all_goals by_cases h5 : s.lastViewport.Height < (Viewport.FromInclusive r).Height
  all_goals
    simp [h1, h2, h3, h4, h5, VtEngine._ResizeWindow, VtEngine._Write, InvalidateAll_suppress,
      InvalidCombine_suppress, InvalidCombine_fst, HRESULT.SUCCEEDED]

theorem UpdateViewport_buffer_suppressed (s : VtEngine) (r : SMALL_RECT)
    (h2 : s.suppressResizeRepaint = true) :
    (s.UpdateViewport r).2.buffer = s.buffer := by
  unfold VtEngine.UpdateViewport
  by_cases h1 : s.lastViewport.Height ≠ (Viewport.FromInclusive r).Height ∨
      s.lastViewport.Width ≠ (Viewport.FromInclusive r).Width
  all_goals by_cases h3 : (Viewport.FromInclusive r).Height < s.lastViewport.Height ∨
      (Viewport.FromInclusive r).Width < s.lastViewport.Width
  all_goals by_cases h4 : s.lastViewport.Width < (Viewport.FromInclusive r).Width
  all_goals by_cases h5 : s.lastViewport.Height < (Viewport.FromInclusive r).Height
  all_goals
    simp [h1, h2, h3, h4, h5, VtEngine._ResizeWindow, VtEngine._Write, InvalidateAll_buffer,
      InvalidCombine_buffer, InvalidCombine_fst, HRESULT.SUCCEEDED]

theorem UpdateViewport_buffer_emits (s : VtEngine) (r : SMALL_RECT)
    (h2 : s.suppressResizeRepaint = false)
    (h1 : s.lastViewport.Height ≠ (Viewport.FromInclusive r).Height ∨
      s.lastViewport.Width ≠ (Viewport.FromInclusive r).Width) :
    (s.UpdateViewport r).2.buffer =
      s.buffer ++ [VtToken.resize (Viewport.FromInclusive r).Width (Viewport.FromInclusive r).Height] := by
  unfold VtEngine.UpdateViewport
  by_cases h3 : (Viewport.FromInclusive r).Height < s.lastViewport.Height ∨
      (Viewport.FromInclusive r).Width < s.lastViewport.Width
  all_goals by_cases h4 : s.lastViewport.Width < (Viewport.FromInclusive r).Width
  all_goals by_cases h5 : s.lastViewport.Height < (Viewport.FromInclusive r).Height
  all_goals
    simp [h1, h2, h3, h4, h5, VtEngine._ResizeWindow, VtEngine._Write, InvalidateAll_buffer,
      InvalidCombine_buffer, InvalidCombine_fst, HRESULT.SUCCEEDED]

theorem UpdateViewport_shrink_invalidRect (s : VtEngine) (r : SMALL_RECT)
    (h3 : (Viewport.FromInclusive r).Height < s.lastViewport.Height ∨
      (Viewport.FromInclusive r).Width < s.lastViewport.Width) :
    (s.UpdateViewport r).2.invalidRect = Viewport.FromInclusive r := by
  unfold VtEngine.UpdateViewport
  by_cases h1 : s.lastViewport.Height ≠ (Viewport.FromInclusive r).Height ∨
      s.lastViewport.Width ≠ (Viewport.FromInclusive r).Width
  all_goals by_cases h2 : s.suppressResizeRepaint = true
  all_goals
    simp [h1, h2, h3, VtEngine._ResizeWindow, VtEngine._Write, VtEngine.InvalidateAll,
      HRESULT.SUCCEEDED]

/-! ### Claim theorems -/

/-- C1: every call to `flush()` made while the Shutdown Signal is
already set returns success immediately, leaves the engine state
untouched, and performs no shared-state event at all — in particular no
pipe write and no store to the Blocked-Writer slot. -/
theorem claim_C1_flush_after_shutdown (s : VtEngine) (tid : Nat) (writeOk : Bool)
    (h : s.shutdownSignaled = true) :
    s._Flush tid writeOk = (HRESULT.S_OK, s, []) := by
  unfold VtEngine._Flush
  simp [h]

/-- Witness for C1 at a concrete engine with the Shutdown Signal set. -/
def c1Engine : VtEngine :=
  { VtEngine.construct (Viewport.FromInclusive ⟨0, 0, 10, 10⟩) with
      shutdownSignaled := true
      buffer := [VtToken.text "pending"] }

theorem claim_C1_flush_after_shutdown_witness :
    c1Engine.shutdownSignaled = true ∧
    c1Engine._Flush 7 true = (HRESULT.S_OK, c1Engine, []) :=
  ⟨rfl, claim_C1_flush_after_shutdown c1Engine 7 true rfl⟩

/-- C2: every call to `flush()` made while the Shutdown Signal is not
set first stores the calling thread's identity in the Blocked-Writer
slot, then performs exactly one synchronous write, of the entire
accumulation buffer, then clears the slot, in that order and regardless
of the write's outcome (so the slot is 0 on return); on write failure it
sets the Shutdown Signal and returns a failure, on success it clears the
buffer and returns success. -/
theorem claim_C2_flush_normal_path (s : VtEngine) (tid : Nat) (writeOk : Bool)
    (h : s.shutdownSignaled = false) :
    ((s._Flush tid writeOk).2.2.take 3 =
      [PipeEvent.storeBlockedThreadId tid, PipeEvent.writeFile s.buffer,
       PipeEvent.storeBlockedThreadId 0]) ∧
    (s._Flush tid writeOk).2.2.countP PipeEvent.isWriteFile = 1 ∧
    (s._Flush tid writeOk).2.1.blockedThreadId = 0 ∧
    (writeOk = false →
      (s._Flush tid writeOk).2.1.shutdownSignaled = true ∧
      (s._Flush tid writeOk).1 = HRESULT.E_FAIL) ∧
    (writeOk = true →
      (s._Flush tid writeOk).2.1.buffer = [] ∧
      (s._Flush tid writeOk).1 = HRESULT.S_OK) := by
  unfold VtEngine._Flush
  cases writeOk <;>
    simp [h, PipeEvent.isWriteFile, List.countP_cons, List.countP_append]

/-- Witness for C2 at a concrete engine, thread 7, failing write. -/
def c2Engine : VtEngine :=
  { VtEngine.construct (Viewport.FromInclusive ⟨0, 0, 10, 10⟩) with
      buffer := [VtToken.text "abc"] }

theorem claim_C2_flush_normal_path_witness :
    ((c2Engine._Flush 7 false).2.2.take 3 =
      [PipeEvent.storeBlockedThreadId 7, PipeEvent.writeFile c2Engine.buffer,
       PipeEvent.storeBlockedThreadId 0]) ∧
    (c2Engine._Flush 7 false).2.2.countP PipeEvent.isWriteFile = 1 ∧
    (c2Engine._Flush 7 false).2.1.blockedThreadId = 0 ∧
    (false = false →
      (c2Engine._Flush 7 false).2.1.shutdownSignaled = true ∧
      (c2Engine._Flush 7 false).1 = HRESULT.E_FAIL) ∧
    (false = true →
      (c2Engine._Flush 7 false).2.1.buffer = [] ∧
      (c2Engine._Flush 7 false).1 = HRESULT.S_OK) :=
  claim_C2_flush_normal_path c2Engine 7 false rfl

/-- C9: on the non-shutdown path the accumulation buffer is cleared
unconditionally after the write attempt — also when the write fails —
and after a failed write a later `flush()` does not retry the dropped
bytes: it performs no write at all (the failure set the Shutdown
Signal). -/
theorem claim_C9_buffer_dropped (s : VtEngine) (tid tid2 : Nat) (writeOk writeOk2 : Bool)
    (h : s.shutdownSignaled = false) :
    (s._Flush tid writeOk).2.1.buffer = [] ∧
    (writeOk = false →
      ((s._Flush tid writeOk).2.1)._Flush tid2 writeOk2 =
        (HRESULT.S_OK, (s._Flush tid writeOk).2.1, [])) := by
  unfold VtEngine._Flush
  cases writeOk <;> cases writeOk2 <;> simp [h]

/-- Witness for C9: failing first flush, then a second flush attempt. -/
def c9Engine : VtEngine :=
  { VtEngine.construct (Viewport.FromInclusive ⟨0, 0, 10, 10⟩) with
      buffer := [VtToken.text "lost"] }

theorem claim_C9_buffer_dropped_witness :
    (c9Engine._Flush 7 false).2.1.buffer = [] ∧
    (false = false →
      ((c9Engine._Flush 7 false).2.1)._Flush 8 true =
        (HRESULT.S_OK, (c9Engine._Flush 7 false).2.1, [])) :=
  claim_C9_buffer_dropped c9Engine 7 8 false true rfl

/-- C6: `requestCursor()` first emits the report-cursor-position control
sequence and then flushes, so on the non-shutdown path the single pipe
write carries the prior buffer with the request sequence appended; it
returns success exactly when both the emission and the flush succeed,
and in particular a failing flush write surfaces as `E_FAIL` to the
caller. -/
theorem claim_C6_requestCursor (s : VtEngine) (tid : Nat) (writeOk : Bool) :
    ((s.RequestCursor tid writeOk).1.SUCCEEDED = true ↔
      (s._RequestCursor.1.SUCCEEDED = true ∧
       (s._RequestCursor.2._Flush tid writeOk).1.SUCCEEDED = true)) ∧
    (s.shutdownSignaled = false →
      PipeEvent.writeFile (s.buffer ++ [VtToken.cursorPositionRequest]) ∈
        (s.RequestCursor tid writeOk).2.2) ∧
    (s.shutdownSignaled = false → writeOk = false →
      (s.RequestCursor tid writeOk).1 = HRESULT.E_FAIL) := by
  unfold VtEngine.RequestCursor VtEngine._RequestCursor VtEngine._Write VtEngine._Flush
  cases hs : s.shutdownSignaled <;> cases writeOk <;>
    simp [HRESULT.SUCCEEDED]

/-- Witness for C6 at a concrete engine with a failing pipe write. -/
def c6Engine : VtEngine :=
  { VtEngine.construct (Viewport.FromInclusive ⟨0, 0, 10, 10⟩) with
      buffer := [VtToken.text "frame"] }

theorem claim_C6_requestCursor_witness :
    ((c6Engine.RequestCursor 3 false).1.SUCCEEDED = true ↔
      (c6Engine._RequestCursor.1.SUCCEEDED = true ∧
       (c6Engine._RequestCursor.2._Flush 3 false).1.SUCCEEDED = true)) ∧
    (c6Engine.shutdownSignaled = false →
      PipeEvent.writeFile (c6Engine.buffer ++ [VtToken.cursorPositionRequest]) ∈
        (c6Engine.RequestCursor 3 false).2.2) ∧
    (c6Engine.shutdownSignaled = false → false = false →
      (c6Engine.RequestCursor 3 false).1 = HRESULT.E_FAIL) :=
  claim_C6_requestCursor c6Engine 3 false

/-- C7: `inheritCursor(pos)` returns success and the state in which the
virtual top is `pos`'s row, the last-known cursor location is `pos`, the
skip-next-cursor-invalidation flag is set and the first-paint flag is
cleared, with every other field of the engine state unchanged — in
particular the Viewport, the Invalidated Region, and the last
transmitted colors and bold flag. -/
theorem claim_C7_inheritCursor (s : VtEngine) (pos : COORD) :
    s.InheritCursor pos =
      (HRESULT.S_OK,
       { s with virtualTop := pos.Y, lastText := pos, skipCursor := true, firstPaint := false }) ∧
    (s.InheritCursor pos).2.lastViewport = s.lastViewport ∧
    (s.InheritCursor pos).2.invalidRect = s.invalidRect ∧
    (s.InheritCursor pos).2.fInvalidRectUsed = s.fInvalidRectUsed ∧
    (s.InheritCursor pos).2.lastFG = s.lastFG ∧
    (s.InheritCursor pos).2.lastBG = s.lastBG ∧
    (s.InheritCursor pos).2.lastWasBold = s.lastWasBold ∧
    (s.InheritCursor pos).2.buffer = s.buffer ∧
    (s.InheritCursor pos).2.suppressResizeRepaint = s.suppressResizeRepaint :=
  ⟨rfl, rfl, rfl, rfl, rfl, rfl, rfl, rfl, rfl⟩

/-- C3: the resize-suppression flag is a one-shot consumed by exactly
the next `updateViewport` call: that call emits nothing into the write
buffer and clears the flag — whether or not the size changed — and a
subsequent size-changing `updateViewport` call does emit a resize
sequence. -/
theorem claim_C3_suppression_one_shot (s : VtEngine) (r1 r2 : SMALL_RECT)
    (hsup : s.suppressResizeRepaint = true) :
    ((s.UpdateViewport r1).2.buffer = s.buffer ∧
     (s.UpdateViewport r1).2.suppressResizeRepaint = false) ∧
    (((s.UpdateViewport r1).2.lastViewport.Height ≠ (Viewport.FromInclusive r2).Height ∨
      (s.UpdateViewport r1).2.lastViewport.Width ≠ (Viewport.FromInclusive r2).Width) →
      ((s.UpdateViewport r1).2.UpdateViewport r2).2.buffer =
        (s.UpdateViewport r1).2.buffer ++
          [VtToken.resize (Viewport.FromInclusive r2).Width (Viewport.FromInclusive r2).Height]) := by
  refine ⟨⟨UpdateViewport_buffer_suppressed s r1 hsup, UpdateViewport_suppress_after s r1⟩, ?_⟩
  intro hchg
  exact UpdateViewport_buffer_emits (s.UpdateViewport r1).2 r2 (UpdateViewport_suppress_after s r1) hchg

/-- Witness for C3: suppress, then grow the viewport twice. -/
def c3Engine : VtEngine :=
  (VtEngine.construct (Viewport.FromInclusive ⟨0, 0, 10, 10⟩)).SuppressResizeRepaint.2

theorem claim_C3_suppression_one_shot_witness :
    ((c3Engine.UpdateViewport ⟨0, 0, 15, 12⟩).2.buffer = c3Engine.buffer ∧
     (c3Engine.UpdateViewport ⟨0, 0, 15, 12⟩).2.suppressResizeRepaint = false) ∧
    (((c3Engine.UpdateViewport ⟨0, 0, 15, 12⟩).2.lastViewport.Height ≠
        (Viewport.FromInclusive ⟨0, 0, 20, 12⟩).Height ∨
      (c3Engine.UpdateViewport ⟨0, 0, 15, 12⟩).2.lastViewport.Width ≠
        (Viewport.FromInclusive ⟨0, 0, 20, 12⟩).Width) →
      ((c3Engine.UpdateViewport ⟨0, 0, 15, 12⟩).2.UpdateViewport ⟨0, 0, 20, 12⟩).2.buffer =
        (c3Engine.UpdateViewport ⟨0, 0, 15, 12⟩).2.buffer ++
          [VtToken.resize (Viewport.FromInclusive ⟨0, 0, 20, 12⟩).Width
             (Viewport.FromInclusive ⟨0, 0, 20, 12⟩).Height]) :=
  claim_C3_suppression_one_shot c3Engine ⟨0, 0, 15, 12⟩ ⟨0, 0, 20, 12⟩ rfl

/-- C4: every `updateViewport` call in which a dimension strictly
shrank leaves the Invalidated Region equal to the full new viewport, so
`isFullyInvalidated()` answers true. -/
theorem claim_C4_shrink_fully_invalidates (s : VtEngine) (r : SMALL_RECT)
    (h : (Viewport.FromInclusive r).Height < s.lastViewport.Height ∨
      (Viewport.FromInclusive r).Width < s.lastViewport.Width) :
    (s.UpdateViewport r).2.invalidRect = Viewport.FromInclusive r ∧
    (s.UpdateViewport r).2._AllIsInvalid = true := by
  refine ⟨UpdateViewport_shrink_invalidRect s r h, ?_⟩
  unfold VtEngine._AllIsInvalid
  rw [UpdateViewport_shrink_invalidRect s r h, UpdateViewport_lastViewport s r]
  simp

/-- Witness for C4 at the spec's example: old viewport (0,0)-(15,12),
new viewport (0,0)-(10,10). -/
def c4Engine : VtEngine := VtEngine.construct (Viewport.FromInclusive ⟨0, 0, 15, 12⟩)

theorem claim_C4_shrink_fully_invalidates_witness :
    (c4Engine.UpdateViewport ⟨0, 0, 10, 10⟩).2.invalidRect =
      Viewport.FromInclusive ⟨0, 0, 10, 10⟩ ∧
    (c4Engine.UpdateViewport ⟨0, 0, 10, 10⟩).2._AllIsInvalid = true :=
  claim_C4_shrink_fully_invalidates c4Engine ⟨0, 0, 10, 10⟩ (by decide)

/-- C8: the watchdog task first blocks on the Shutdown Signal (and
never waits again), loads the Blocked-Writer slot exactly once, issues
at most one forced cancellation, and — provided opening the referenced
thread succeeds — issues the cancellation for exactly the observed
thread identity precisely when the slot was non-empty. -/
theorem claim_C8_watchdog_single_shot (tid : Nat) (openOk : Bool) :
    (shutdownWatchdogTask tid openOk).head? = some WatchdogAction.waitForShutdownEvent ∧
    (shutdownWatchdogTask tid openOk).countP WatchdogAction.isWait = 1 ∧
    (shutdownWatchdogTask tid openOk).countP WatchdogAction.isLoad = 1 ∧
    (shutdownWatchdogTask tid openOk).countP WatchdogAction.isCancel ≤ 1 ∧
    (openOk = true →
      (WatchdogAction.cancelSyncWrite tid ∈ shutdownWatchdogTask tid openOk ↔ tid ≠ 0)) := by
  by_cases h : tid = 0 <;> cases openOk <;>
    simp [shutdownWatchdogTask, h, WatchdogAction.isWait, WatchdogAction.isLoad,
      WatchdogAction.isCancel, List.countP_cons, List.countP_append]

/-- Witness for C8 with a blocked writer (thread 5) and a successful
thread-open. -/
theorem claim_C8_watchdog_single_shot_witness :
    (shutdownWatchdogTask 5 true).head? = some WatchdogAction.waitForShutdownEvent ∧
    (shutdownWatchdogTask 5 true).countP WatchdogAction.isWait = 1 ∧
    (shutdownWatchdogTask 5 true).countP WatchdogAction.isLoad = 1 ∧
    (shutdownWatchdogTask 5 true).countP WatchdogAction.isCancel ≤ 1 ∧
    (true = true →
      (WatchdogAction.cancelSyncWrite 5 ∈ shutdownWatchdogTask 5 true ↔ (5 : Nat) ≠ 0)) :=
  claim_C8_watchdog_single_shot 5 true

/-- C10: the constructor initializes the resize-suppression flag to
true, so the first `updateViewport` call after construction emits
nothing into the write buffer, whatever the new viewport is. -/
theorem claim_C10_first_update_emits_nothing (initialViewport : Viewport) (r : SMALL_RECT) :
    (VtEngine.construct initialViewport).suppressResizeRepaint = true ∧
    ((VtEngine.construct initialViewport).UpdateViewport r).2.buffer = [] :=
  ⟨rfl, UpdateViewport_buffer_suppressed (VtEngine.construct initialViewport) r rfl⟩

/-- Engine state right before the growth scenario of C5: old viewport
(0,0)-(10,10), nothing invalidated yet. -/
def c5Engine : VtEngine := VtEngine.construct (Viewport.FromInclusive ⟨0, 0, 10, 10⟩)

/-- The column band to the right of the old viewport in the C5 growth
scenario: columns 11–15, rows 0–10. -/
def c5RightBand : Viewport := Viewport.FromInclusive ⟨11, 0, 15, 10⟩

/-- The row band below the old viewport in the C5 growth scenario:
columns 0–15, rows 11–12. -/
def c5BottomBand : Viewport := Viewport.FromInclusive ⟨0, 11, 15, 12⟩

/-- Counterexample to C5 as stated: growing the viewport from
(0,0)-(10,10) to (0,0)-(15,12) leaves an Invalidated Region that is not
the set-union of the right band and the bottom band — the region is one
rectangle, and it contains the cell (0,0), which lies in neither band. -/
theorem claim_C5_counterexample :
    ¬ (∀ x y : Int,
      (c5Engine.UpdateViewport ⟨0, 0, 15, 12⟩).2.invalidRect.ContainsCell x y =
        (c5RightBand.ContainsCell x y || c5BottomBand.ContainsCell x y)) := by
  intro hAll
  exact absurd (hAll 0 0) (by decide)

/-- C5 (amended): in the growth scenario the engine combines first the
right band and then the bottom band into the Invalidated Region, each
clipped to the new viewport, but the region is maintained as a single
bounding-box rectangle: the result is the smallest rectangle containing
both bands — here the full new viewport (0,0)-(15,12) — a superset of
the two bands rather than their exact set-union. -/
theorem claim_C5_growth_bounding_box (s : VtEngine)
    (hused : s.fInvalidRectUsed = false)
    (hview : s.lastViewport = Viewport.FromInclusive ⟨0, 0, 10, 10⟩) :
    (s.UpdateViewport ⟨0, 0, 15, 12⟩).2.invalidRect = Viewport.FromInclusive ⟨0, 0, 15, 12⟩ ∧
    (∀ x y : Int,
      (c5RightBand.ContainsCell x y || c5BottomBand.ContainsCell x y) = true →
      (s.UpdateViewport ⟨0, 0, 15, 12⟩).2.invalidRect.ContainsCell x y = true) ∧
    (∀ v : Viewport, c5RightBand.SubsetOf v → c5BottomBand.SubsetOf v →
      (s.UpdateViewport ⟨0, 0, 15, 12⟩).2.invalidRect.SubsetOf v) := by
  have hmain : (s.UpdateViewport ⟨0, 0, 15, 12⟩).2.invalidRect =
      Viewport.FromInclusive ⟨0, 0, 15, 12⟩ := by
    by_cases hsup : s.suppressResizeRepaint = true
    all_goals
      simp [hused, hview, hsup, VtEngine.UpdateViewport, VtEngine._ResizeWindow,
        VtEngine._Write, VtEngine.InvalidateAll, VtEngine._InvalidCombine, Viewport.Intersects,
        Viewport.FromInclusive, Viewport.Union, Viewport.Clip, Viewport.Width, Viewport.Height,
        Viewport.RightExclusive, Viewport.RightInclusive, Viewport.BottomInclusive,
        Viewport.BottomExclusive, HRESULT.SUCCEEDED, min_def, max_def]
  refine ⟨hmain, ?_, ?_⟩
  · intro x y hxy
    rw [hmain]
    simp only [Viewport.ContainsCell, c5RightBand, c5BottomBand, Viewport.FromInclusive,
      Bool.or_eq_true, decide_eq_true_eq] at hxy ⊢
    omega
  · intro v h1 h2
    rw [hmain]
    simp only [Viewport.SubsetOf, c5RightBand, c5BottomBand, Viewport.FromInclusive] at h1 h2 ⊢
    obtain ⟨a1, a2, a3, a4⟩ := h1
    obtain ⟨b1, b2, b3, b4⟩ := h2
    exact ⟨by omega, by omega, by omega, by omega⟩

/-- Witness for the amended C5 at the concrete pre-state. -/
theorem claim_C5_growth_bounding_box_witness :
    (c5Engine.UpdateViewport ⟨0, 0, 15, 12⟩).2.invalidRect =
      Viewport.FromInclusive ⟨0, 0, 15, 12⟩ ∧
    (∀ x y : Int,
      (c5RightBand.ContainsCell x y || c5BottomBand.ContainsCell x y) = true →
      (c5Engine.UpdateViewport ⟨0, 0, 15, 12⟩).2.invalidRect.ContainsCell x y = true) ∧
    (∀ v : Viewport, c5RightBand.SubsetOf v → c5BottomBand.SubsetOf v →
      (c5Engine.UpdateViewport ⟨0, 0, 15, 12⟩).2.invalidRect.SubsetOf v) :=
  claim_C5_growth_bounding_box c5Engine rfl rfl

end VtTerminal
